import Mathlib

set_option maxHeartbeats 1000000

/-!
Verification of the f5 development-loop supervisor (package `f5`,
entry point `f5/main.go`) against its natural-language specification.

The Go source is shallowly embedded: each Go function or goroutine body
that a claim refers to is translated into an executable Lean definition,
with channels, the filesystem and the OS modelled by explicit data
(queues as lists with a capacity, directory trees as an inductive type,
syscall outcomes as parameters). Definitions whose name starts with
`spec` are the exception: they transcribe the specification's wording,
to be compared with the code-derived definitions.
-/

namespace F5

/-! ## Extension allow-list (f5.go, `supportedExtensions` / `supportedExtensionMap`) -/

/-- The fixed allow-list of source-file extensions (f5.go lines 23-26). -/
def supportedExtensions : List String :=
  [".py", ".js", ".java", ".ts", ".go", ".cpp", ".rb", ".php", ".cs", ".c"]

/-- `supportedExtensionMap[ext]`: membership in the allow-list
(f5.go `init`, lines 41-45; a missing key reads as `false`). -/
def supportedExtensionMap (ext : String) : Bool :=
  supportedExtensions.contains ext

/-! ## Go standard-library helpers used by the source -/

/-- Scan of a path's characters from the end: stops at a path separator,
returns the suffix from the last dot (helper for `filepathExt`).
The argument is the reversed character list of the path. -/
def extFromRev : List Char → List Char
  | [] => []
  | c :: cs =>
    if c = '/' then []
    else if c = '.' then [c]
    else
      match extFromRev cs with
      | [] => []
      | r => r ++ [c]

/-- Go's `filepath.Ext`: the suffix beginning at the final dot in the final
slash-separated element of the path, empty if there is no dot. -/
def filepathExt (path : String) : String :=
  String.mk (extFromRev path.data.reverse)

/-- Whether a character list begins with the given pattern. -/
def startsWithChars : List Char → List Char → Bool
  | _, [] => true
  | [], _ :: _ => false
  | c :: cs, p :: ps => c == p && startsWithChars cs ps

/-- Whether a character list contains the pattern as a contiguous run. -/
def hasSubstrChars : List Char → List Char → Bool
  | [], pat => pat.isEmpty
  | c :: cs, pat => startsWithChars (c :: cs) pat || hasSubstrChars cs pat

/-- Go's `strings.Contains` on strings. -/
def containsSubstr (s pat : String) : Bool :=
  hasSubstrChars s.data pat.data

/-- Go's `strings.HasPrefix(s, ".")`: the hidden-directory test applied
to a base name. -/
def hasDotPrefix (s : String) : Bool :=
  startsWithChars s.data ".".data

/-- Go's `filepath.Join` for an absolute directory and a base name,
as used when the walk descends into a child entry. -/
def pathJoin (dir base : String) : String :=
  dir ++ "/" ++ base

/-! ## Directory trees -/

/-- A node of a directory tree: a regular file, or a directory with a base
name, a flag saying whether reading its entries succeeds (`ioutil.ReadDir`
and the walk's own `ReadDir`), and its entries in directory (name-sorted)
order, as Go's `ReadDir` returns them. -/
inductive FsNode where
  | file (name : String)
  | dir (name : String) (readable : Bool) (children : List FsNode)
deriving Repr

/-- The base name of an entry, as `FileInfo.Name` / `DirEntry.Name` return it. -/
def nodeName : FsNode → String
  | .file n => n
  | .dir n _ _ => n

/-- The loop of the walk callback over `ioutil.ReadDir`'s result
(f5.go lines 199-204): does some entry of the directory — file or
subdirectory alike, the code never checks — have an allow-listed
extension? -/
def hasSupportedEntry (children : List FsNode) : Bool :=
  children.any (fun c => supportedExtensionMap (filepathExt (nodeName c)))

mutual

/-- Embedding of `filepath.WalkDir` composed with the callback of
`Run.watch` (f5.go lines 183-206). Result: the directories appended to
`dirs`, in visit order, and the error the walk stopped with (`none` when
it ran to completion). The callback ignores files, answers `SkipDir` for
a directory whose base name starts with `.` (pruning its subtree),
propagates a `ReadDir` failure, and appends the directory when some entry
has an allow-listed extension; `WalkDir` stops the whole walk when the
callback returns a non-`SkipDir` error. -/
def walkNode (path : String) : FsNode → List String × Option String
  | .file _ => ([], none)
  | .dir name readable children =>
    if hasDotPrefix name then ([], none)
    else if readable = false then ([], some ("open " ++ path ++ ": permission denied"))
    else
      let here : List String := if hasSupportedEntry children then [path] else []
      let sub := walkList path children
      (here ++ sub.1, sub.2)

/-- The walk over a directory's entries, left to right, stopping at the
first error while keeping the directories already collected. -/
def walkList (path : String) : List FsNode → List String × Option String
  | [] => ([], none)
  | c :: cs =>
    let r := walkNode (pathJoin path (nodeName c)) c
    match r.2 with
    | some e => (r.1, some e)
    | none =>
      let rest := walkList path cs
      (r.1 ++ rest.1, rest.2)

end

/-- `Run.watch`'s scan phase (f5.go lines 177-211): `os.Getwd` may fail,
in which case its error is returned; otherwise `filepath.WalkDir` runs and
its return value is DISCARDED by the source (the call's result is not
assigned), so the collected directories are registered and `watch`
continues regardless of a scan error. -/
def watchScan (getwdErr : Option String) (rootPath : String) (root : FsNode) :
    Except String (List String) :=
  match getwdErr with
  | some e => .error e
  | none => .ok (walkNode rootPath root).1

/-- Whether `main` aborts startup on `Run.Start`'s result
(main.go lines 23-25: `log.Fatalf` exactly when the returned error is
non-nil; `Start` returns `watch`'s result). -/
def startAborts : Except String (List String) → Bool
  | .error _ => true
  | .ok _ => false

/-! ## Specification-side scanner definitions -/

/-- Whether an entry is a regular file with an allow-listed extension
(the specification's words: "at least one file whose extension is in the
Extension Allow-List"). -/
def fileQualifies : FsNode → Bool
  | .file n => supportedExtensionMap (filepathExt n)
  | .dir _ _ _ => false

/-- A directory's entries contain a qualifying regular file. -/
def hasQualifyingFile (children : List FsNode) : Bool :=
  children.any fileQualifies

mutual

/-- Modelled from the spec: "the ordered list of directories (pre-order,
depth-first) that contain at least one file whose extension is in the
Extension Allow-List, excluding any directory (and its entire subtree)
whose base name starts with `.`" — with "file" read as regular file. -/
def specScanFile (path : String) : FsNode → List String
  | .file _ => []
  | .dir name _ children =>
    if hasDotPrefix name then []
    else
      (if hasQualifyingFile children then [path] else []) ++
        specScanFileList path children

/-- Pre-order traversal of a directory's entries for `specScanFile`. -/
def specScanFileList (path : String) : List FsNode → List String
  | [] => []
  | c :: cs =>
    specScanFile (pathJoin path (nodeName c)) c ++ specScanFileList path cs

end

mutual

/-- Modelled from the spec as amended: same pre-order scan, but a
directory qualifies when at least one of its directory ENTRIES — regular
file or subdirectory — has an allow-listed extension, which is what the
code's `ReadDir` loop tests. -/
def specScanEntry (path : String) : FsNode → List String
  | .file _ => []
  | .dir name _ children =>
    if hasDotPrefix name then []
    else
      (if hasSupportedEntry children then [path] else []) ++
        specScanEntryList path children

/-- Pre-order traversal of a directory's entries for `specScanEntry`. -/
def specScanEntryList (path : String) : List FsNode → List String
  | [] => []
  | c :: cs =>
    specScanEntry (pathJoin path (nodeName c)) c ++ specScanEntryList path cs

end

mutual

/-- Every directory in the tree is readable (no `ReadDir` error anywhere). -/
def allReadable : FsNode → Bool
  | .file _ => true
  | .dir _ readable children => readable && allReadableList children

/-- `allReadable` over a list of entries. -/
def allReadableList : List FsNode → Bool
  | [] => true
  | c :: cs => allReadable c && allReadableList cs

end

/-! ## Operations on the `Run` value

The Go code has four concurrently-scheduled units that touch the `Run`
value: the coordinator goroutine spawned by `Start`, the watch-loop
goroutine spawned by `watch`, the `ListenForKeys` goroutine spawned by
`main`, and `main` itself via `Close`. Each unit's reaction to an input
is embedded as a list of `RunOp` operations. -/

/-- An operation a unit of the program performs on the shared `Run` value
or the operating system. `restartProc` is a call to `Run.Restart` (which
writes `r.process`: `kill` sets it to nil, a successful start records the
new handle); `killProc` is a call to `Run.kill` (which writes
`r.process`); `enqueueRestart` is a send on the `r.restart` channel and
touches only the queue. -/
inductive RunOp where
  | termRestore
  | watcherClose
  | killProc
  | restartProc
  | enqueueRestart
deriving DecidableEq, Repr

/-- Whether an operation reads or writes the child-process handle
`r.process` (`Restart` and `kill` do; a queue send and the terminal or
watcher teardown do not). -/
def opMutatesHandle : RunOp → Bool
  | .killProc => true
  | .restartProc => true
  | _ => false

/-- `Run.ListenForKeys`'s reaction to one decoded keystroke
(f5.go lines 166-173): the `switch` on `e.String()` falls through from
`"DC2"` (Ctrl-R) and `" "` (space) to `"F5"`, whose body calls
`r.Restart(ctx)` directly; every other keystroke hits no case and does
nothing. -/
def keyOp (e : String) : Option RunOp :=
  if e = "DC2" then some .restartProc
  else if e = " " then some .restartProc
  else if e = "F5" then some .restartProc
  else none

/-- `Run.Close` (f5.go lines 109-113): restore the terminal, close the
watcher, kill the child's process group. -/
def closeOps : List RunOp :=
  [.termRestore, .watcherClose, .killProc]

/-- The operation list `Run.Start`'s deferred function performs when
`Start` returns (f5.go lines 150-152): one send on `r.restart`, the
initial restart request that starts the first invocation. -/
def startDeferredOps : List RunOp :=
  [.enqueueRestart]

/-! ## The coordinator loop (f5.go lines 139-148) -/

/-- What the coordinator goroutine's `select` can wake up on. -/
inductive CoordInput where
  | restartSig
  | ctxDone
deriving DecidableEq, Repr

/-- One iteration of the coordinator loop: whether the loop exits and the
operations it performs. -/
structure CoordStep where
  exits : Bool
  ops : List RunOp
deriving DecidableEq, Repr

/-- The coordinator goroutine body: a value received on `r.restart` makes
it call `r.Restart(ctx)` and loop again; `ctx.Done()` makes it return at
once, performing nothing. -/
def coordStep : CoordInput → CoordStep
  | .restartSig => ⟨false, [.restartProc]⟩
  | .ctxDone => ⟨true, []⟩

/-! ## The watch loop (f5.go lines 213-241) -/

/-- The `fsnotify.Write` operation bit. -/
def fsnotifyWrite : Nat := 2

/-- What the watch-loop goroutine's `select` can wake up on: context
cancellation, the events channel delivering a value or being closed, the
errors channel delivering a value or being closed. -/
inductive WatchInput where
  | ctxDone
  | eventMsg (op : Nat) (name : String)
  | eventClosed
  | errMsg (e : String)
  | errClosed
deriving DecidableEq, Repr

/-- One iteration of the watch loop: whether the loop exits, the
operations it performs, and the lines it reports. -/
structure WatchStep where
  exits : Bool
  ops : List RunOp
  reports : List String
deriving DecidableEq, Repr

/-- The watch-loop goroutine body. Cancellation returns silently. A closed
events channel (`ok` false) reports and returns; an event whose `Op`
lacks the `Write` bit, or whose path's extension is not allow-listed, is
skipped; a qualifying event is reported and one signal is sent on
`r.restart`. A closed errors channel reports and returns; an error VALUE
is reported (`printf` with the stray argument rendered by Go's `%!(EXTRA ...)`)
and the loop continues. -/
def watchStep : WatchInput → WatchStep
  | .ctxDone => ⟨true, [], []⟩
  | .eventMsg op name =>
    if ¬(op &&& fsnotifyWrite = fsnotifyWrite) then ⟨false, [], []⟩
    else if supportedExtensionMap (filepathExt name) = false then ⟨false, [], []⟩
    else ⟨false, [.enqueueRestart], ["Modified file: " ++ name]⟩
  | .eventClosed => ⟨true, [], ["Unknown event, halting."]⟩
  | .errMsg e => ⟨false, [], ["Error:%!(EXTRA *errors.errorString=" ++ e ++ ")"]⟩
  | .errClosed => ⟨true, [], ["Unknown error, halting."]⟩

/-! ## The restart signal queue (f5.go line 84, sends at lines 151 and 232) -/

/-- Capacity of the `r.restart` channel: `make(chan bool, 100)`. -/
def restartQueueCapacity : Nat := 100

/-- Outcome of a send on a Go buffered channel with no ready receiver. -/
inductive SendOutcome where
  | enqueued
  | blocked
deriving DecidableEq, Repr

/-- Semantics of the plain send `r.restart <- true` when `pending` values
are buffered: a buffered-channel send enqueues while the buffer has room
and otherwise blocks the sender until room appears (Go has no drop
semantics for a plain send; dropping would need a `select` with a
`default` branch, which the source does not use). -/
def chanSend (pending : Nat) : SendOutcome :=
  if pending < restartQueueCapacity then .enqueued else .blocked

/-! ## `Run.kill` (f5.go lines 93-107) -/

/-- A Unix signal sent by `Run.kill`. -/
inductive Sig where
  | sigint
  | sigkill
deriving DecidableEq, Repr

/-- The observable effects of one `Run.kill` call: the `syscall.Kill`
calls it makes (target, signal), the diagnostic lines it prints, and the
value of `r.process` afterwards. -/
structure KillTrace where
  sent : List (Int × Sig)
  reports : List String
  processAfter : Option Nat
deriving DecidableEq, Repr

/-- Diagnostic printed when the interrupt send fails for a reason other
than "no such process". -/
def interruptFailMsg (pid : Nat) (e : String) : String :=
  "Process " ++ toString pid ++ ": cannot interrupt: " ++ e

/-- Diagnostic printed before the SIGKILL escalation. -/
def sigkillMsg (pid : Nat) : String :=
  "Process " ++ toString pid ++ ": sending sigkill"

/-- Diagnostic printed when the SIGKILL send also fails. -/
def killFailMsg (pid : Nat) (e : String) : String :=
  "Process " ++ toString pid ++ ": cannot be killed: " ++ e

/-- Embedding of `Run.kill`. `process` is `r.process` on entry (`none`
for nil); `intErr` is the error `syscall.Kill(-pid, SIGINT)` returns,
`killErr` the error `syscall.Kill(-pid, SIGKILL)` would return. With a
nil handle nothing happens. Otherwise SIGINT goes to the negated pid
(the process group); if that fails with an error whose text does NOT
contain "no such process", the failure is reported, the escalation is
reported, and one SIGKILL goes to the same negated pid, its failure
reported if it fails. In every case `r.process` is set to nil. -/
def killRun (process : Option Nat) (intErr killErr : Option String) : KillTrace :=
  match process with
  | none => ⟨[], [], none⟩
  | some pid =>
    match intErr with
    | none => ⟨[(-(pid : Int), .sigint)], [], none⟩
    | some e =>
      if containsSubstr e "no such process" then
        ⟨[(-(pid : Int), .sigint)], [], none⟩
      else
        ⟨[(-(pid : Int), .sigint), (-(pid : Int), .sigkill)],
          [interruptFailMsg pid e, sigkillMsg pid] ++
            (match killErr with
              | some e2 => [killFailMsg pid e2]
              | none => []),
          none⟩

/-! ## Interleavings of `Run.Restart` (f5.go lines 115-134)

`Restart` is `kill` followed by `cmd.Start()` recording the new handle.
Split into those two micro-steps to talk about what concurrent calls —
the coordinator goroutine and the `ListenForKeys` goroutine both call
`Restart` with no lock — can interleave to. -/

/-- A micro-step of `Run.Restart`: the `kill` prologue, or a successful
`cmd.Start()` recording the new pid in `r.process`. -/
inductive MicroStep where
  | killGroup
  | recordStart (pid : Nat)
deriving DecidableEq, Repr

/-- The shared state the micro-steps act on: the handle `r.process` and
the set of child processes actually alive in the OS. -/
structure ProcState where
  handle : Option Nat
  alive : List Nat
deriving DecidableEq, Repr

/-- Effect of one micro-step: `killGroup` with a nil handle does nothing,
with a recorded pid it terminates that pid's group and clears the handle;
`recordStart pid` spawns `pid` and records it. -/
def applyMicro (st : ProcState) : MicroStep → ProcState
  | .killGroup =>
    match st.handle with
    | none => st
    | some p => ⟨none, st.alive.erase p⟩
  | .recordStart pid => ⟨some pid, pid :: st.alive⟩

/-- The micro-step sequence of one successful `Run.Restart` that starts
process `pid`. -/
def restartMicro (pid : Nat) : List MicroStep :=
  [.killGroup, .recordStart pid]

/-- Initial state: no handle, no child alive. -/
def initProcState : ProcState := ⟨none, []⟩

/-- Whether `zs` is an interleaving of `xs` and `ys` (each of `xs`, `ys`
kept in order). -/
def interleaves : List MicroStep → List MicroStep → List MicroStep → Bool
  | [], [], [] => true
  | [], [], _ :: _ => false
  | _ :: _, _, [] => false
  | [], _ :: _, [] => false
  | [], y :: ys, z :: zs => y == z && interleaves [] ys zs
  | x :: xs, [], z :: zs => x == z && interleaves xs [] zs
  | x :: xs, y :: ys, z :: zs =>
    (x == z && interleaves xs (y :: ys) zs) ||
      (y == z && interleaves (x :: xs) ys zs)

/-- Run a schedule of micro-steps from a state. -/
def runSchedule (st : ProcState) (sched : List MicroStep) : ProcState :=
  sched.foldl applyMicro st

/-! ## `New` (f5.go lines 68-91) and `main` (main.go) -/

/-- How a call to `New` ends: an error return, a runtime panic, or a
`Run` value (its argument vector and restart-queue capacity). -/
inductive NewOutcome where
  | err (msg : String)
  | panicked (msg : String)
  | ok (args : List String) (queueCap : Nat)
deriving DecidableEq, Repr

/-- Embedding of `New`. `watcherErr` is `fsnotify.NewWatcher()`'s error,
`termErr` is `term.Open("/dev/tty")`'s; each non-nil error is returned at
once. Then `filepath.Base(args[0])` is evaluated: with an empty argument
list this indexes past the end of the slice and panics; otherwise the
`Run` value is built with `make(chan bool, 100)`. -/
def NewRun (args : List String) (watcherErr termErr : Option String) : NewOutcome :=
  match watcherErr with
  | some e => .err e
  | none =>
    match termErr with
    | some e => .err e
    | none =>
      match args with
      | [] => .panicked "runtime error: index out of range [0] with length 0"
      | a :: rest => .ok (a :: rest) 100

/-- Whether `term.Open` succeeded, i.e. the Terminal Mode Token (the
saved original terminal state inside `*term.Term`) was acquired. In `New`
the watcher is constructed first, so a watcher error means `term.Open`
never ran. -/
def tokenAcquired (watcherErr termErr : Option String) : Bool :=
  watcherErr.isNone && termErr.isNone

/-- How many times `main` (main.go lines 14-34) calls `term.Restore`
(via `Run.Close`) on each exit path. A `New` error hits `log.Fatalf`
before any token exists; a `Start` error hits `log.Fatalf`, which calls
`os.Exit` and runs no deferred or cleanup code, so `Close` — the only
restore site on `main`'s path — never runs; otherwise `main` blocks on
the signal channel and calls `r.Close()` once, whose first statement is
`r.term.Restore()`. -/
def mainRestoreCount (watcherErr termErr startErr : Option String) : Nat :=
  match watcherErr with
  | some _ => 0
  | none =>
    match termErr with
    | some _ => 0
    | none =>
      match startErr with
      | some _ => 0
      | none => 1

/-- Whether a `New` outcome is an error return. -/
def isErrOutcome : NewOutcome → Bool
  | .err _ => true
  | _ => false

/-! # Theorems -/

/-! ## Scanner equivalence (helper lemmas for the scanner claims) -/

mutual

/-- The walk of an everywhere-readable tree completes without error and
collects exactly the pre-order list of non-hidden directories having at
least one entry with an allow-listed extension. -/
theorem walkNode_eq_specEntry (path : String) (t : FsNode)
    (h : allReadable t = true) :
    walkNode path t = (specScanEntry path t, none) := by
  match t with
  | .file n => simp [walkNode, specScanEntry]
  | .dir name readable children =>
    simp [allReadable, Bool.and_eq_true] at h
    by_cases hh : hasDotPrefix name = true
    · simp [walkNode, specScanEntry, hh]
    · have hlist := walkList_eq_specEntry path children h.2
      simp [walkNode, specScanEntry, hh, h.1, hlist]

/-- List version of `walkNode_eq_specEntry`. -/
theorem walkList_eq_specEntry (path : String) (l : List FsNode)
    (h : allReadableList l = true) :
    walkList path l = (specScanEntryList path l, none) := by
  match l with
  | [] => simp [walkList, specScanEntryList]
  | c :: cs =>
    simp [allReadableList, Bool.and_eq_true] at h
    have hc := walkNode_eq_specEntry (pathJoin path (nodeName c)) c h.1
    have hcs := walkList_eq_specEntry path cs h.2
    simp [walkList, specScanEntryList, hc, hcs]

end

/-! ## Claim C1 -/

/-- Claim C1, counterexample: the child-process handle is NOT mutated
only from the coordinator loop — the keyboard listener's handler for the
F5 key calls `Run.Restart` directly, an operation that reads and writes
`r.process`, from its own goroutine. -/
theorem handle_mutated_outside_coordinator_cex :
    keyOp "F5" = some RunOp.restartProc ∧
    opMutatesHandle RunOp.restartProc = true := by decide

/-- Claim C1 as amended: the handle is mutated from several concurrent
units, not exclusively from the coordinator loop — the keyboard listener
calls `Restart` directly on a recognized key and `Close` calls `kill` —
and without that serialization an interleaving of two `Restart` calls
(kill, kill, start 10, start 20 — a legal interleaving of the two
two-step sequences) leaves two child processes alive at once, while the
serialized execution of the same two restarts leaves exactly one. -/
theorem handle_mutation_not_serialized :
    keyOp "F5" = some RunOp.restartProc ∧
    opMutatesHandle RunOp.restartProc = true ∧
    RunOp.killProc ∈ closeOps ∧
    opMutatesHandle RunOp.killProc = true ∧
    (coordStep CoordInput.restartSig).ops = [RunOp.restartProc] ∧
    interleaves (restartMicro 10) (restartMicro 20)
      [MicroStep.killGroup, MicroStep.killGroup,
        MicroStep.recordStart 10, MicroStep.recordStart 20] = true ∧
    (runSchedule initProcState
      [MicroStep.killGroup, MicroStep.killGroup,
        MicroStep.recordStart 10, MicroStep.recordStart 20]).alive.length = 2 ∧
    (runSchedule initProcState (restartMicro 10 ++ restartMicro 20)).alive.length = 1 := by
  decide

/-! ## Claim C2 -/

/-- Claim C2, counterexample: a recognized keystroke does not push a
signal onto the restart queue — the F5 handler performs a direct
`Restart` call, not a queue send. -/
theorem key_not_enqueued_cex :
    keyOp "F5" = some RunOp.restartProc ∧
    some RunOp.restartProc ≠ some RunOp.enqueueRestart := by decide

/-- Claim C2 as amended: each of the three recognized keystrokes — "F5",
"DC2" (Ctrl-R) and the space character — makes the keyboard listener call
the restart operation directly on the process supervisor (not a queue
push), and every other keystroke performs no operation at all. -/
theorem key_triggers_direct_restart :
    (keyOp "DC2" = some RunOp.restartProc ∧
      keyOp " " = some RunOp.restartProc ∧
      keyOp "F5" = some RunOp.restartProc) ∧
    ∀ s : String, s ≠ "DC2" → s ≠ " " → s ≠ "F5" → keyOp s = none := by
  refine ⟨by decide, fun s h1 h2 h3 => ?_⟩
  simp [keyOp, h1, h2, h3]

/-- Witness for `key_triggers_direct_restart` at the unrecognized
keystroke "j". -/
theorem key_triggers_direct_restart_witness : keyOp "j" = none :=
  key_triggers_direct_restart.2 "j" (by decide) (by decide) (by decide)

/-! ## Claim C3 -/

/-- Claim C3, counterexample: on the tree `work/sub/a.go` where `a.go` is
a DIRECTORY, the scan includes `/work/sub` although `sub` contains no
file with an allow-listed extension — the code tests the extension of
every directory entry, subdirectories included — so the scan differs
from the list of directories that directly contain a qualifying file. -/
theorem scan_counts_dir_entries_cex :
    (walkNode "/work"
      (FsNode.dir "work" true [FsNode.dir "sub" true [FsNode.dir "a.go" true []]])).1 =
      ["/work/sub"] ∧
    specScanFile "/work"
      (FsNode.dir "work" true [FsNode.dir "sub" true [FsNode.dir "a.go" true []]]) = [] ∧
    (["/work/sub"] : List String) ≠ [] := by decide

/-- Claim C3 as amended: for every everywhere-readable root tree, the
scanner returns exactly the pre-order depth-first list of directories
that directly contain at least one directory ENTRY (regular file or
subdirectory) whose name's extension is in the allow-list; no directory
whose base name starts with `.`, nor any of its descendants, ever
appears; directories with zero qualifying entries are excluded. -/
theorem scan_eq_specEntry (path : String) (t : FsNode)
    (h : allReadable t = true) :
    (walkNode path t).1 = specScanEntry path t ∧ (walkNode path t).2 = none := by
  rw [walkNode_eq_specEntry path t h]
  exact ⟨rfl, rfl⟩

/-- Witness for `scan_eq_specEntry` on the concrete tree
`work/{.git/config, src/app.py}`. -/
theorem scan_eq_specEntry_witness :
    (walkNode "/work"
      (FsNode.dir "work" true
        [FsNode.dir ".git" true [FsNode.file "config"],
          FsNode.dir "src" true [FsNode.file "app.py"]])).1 =
      specScanEntry "/work"
        (FsNode.dir "work" true
          [FsNode.dir ".git" true [FsNode.file "config"],
            FsNode.dir "src" true [FsNode.file "app.py"]]) :=
  (scan_eq_specEntry "/work"
    (FsNode.dir "work" true
      [FsNode.dir ".git" true [FsNode.file "config"],
        FsNode.dir "src" true [FsNode.file "app.py"]]) (by decide)).1

/-! ## Claim C4 -/

/-- Claim C4: in `Run.kill`, when the interrupt send to the negated
process-group id fails with an error containing "no such process", no
SIGKILL is sent and nothing is reported; when it fails with any other
error, exactly one SIGKILL is sent to the same negated group id, the
interrupt failure and the escalation are reported, and a SIGKILL failure
is reported as well when it occurs. -/
theorem kill_escalation_policy (pid : Nat) (e : String) (killErr : Option String) :
    (containsSubstr e "no such process" = true →
      (killRun (some pid) (some e) killErr).sent = [(-(pid : Int), Sig.sigint)] ∧
      (killRun (some pid) (some e) killErr).reports = []) ∧
    (containsSubstr e "no such process" = false →
      (killRun (some pid) (some e) killErr).sent =
        [(-(pid : Int), Sig.sigint), (-(pid : Int), Sig.sigkill)] ∧
      interruptFailMsg pid e ∈ (killRun (some pid) (some e) killErr).reports ∧
      sigkillMsg pid ∈ (killRun (some pid) (some e) killErr).reports ∧
      ∀ e2, killErr = some e2 →
        killFailMsg pid e2 ∈ (killRun (some pid) (some e) killErr).reports) := by
  constructor
  · intro h
    simp [killRun, h]
  · intro h
    cases killErr with
    | none => simp [killRun, h]
    | some e2 => simp [killRun, h]

/-- Witness for `kill_escalation_policy`: with pid 9, an interrupt error
"no such process" is silent, and an interrupt error "operation not
permitted" leads to the escalation report. -/
theorem kill_escalation_policy_witness :
    (killRun (some 9) (some "no such process") none).reports = [] ∧
    sigkillMsg 9 ∈
      (killRun (some 9) (some "operation not permitted") (some "eperm")).reports :=
  ⟨((kill_escalation_policy 9 "no such process" none).1 (by decide)).2,
    ((kill_escalation_policy 9 "operation not permitted" (some "eperm")).2
      (by decide)).2.2.1⟩

/-! ## Claim C5 -/

/-- Claim C5: the code contradicts it. On a root whose directory cannot
be read, the walk does stop with an error, but `Run.watch` discards
`filepath.WalkDir`'s return value: `watch` returns success with an empty
directory list, `main` does not abort (`startAborts` is false), and
`Start`'s deferred send of the initial restart request still runs, so the
child process is started despite the failed scan. -/
theorem scan_error_not_propagated :
    (walkNode "/work" (FsNode.dir "work" false [])).2 =
      some "open /work: permission denied" ∧
    watchScan none "/work" (FsNode.dir "work" false []) = Except.ok [] ∧
    startAborts (watchScan none "/work" (FsNode.dir "work" false [])) = false ∧
    startDeferredOps = [RunOp.enqueueRestart] :=
  ⟨rfl, rfl, rfl, rfl⟩

/-! ## Claim C6 -/

/-- Claim C6, counterexample: a value received on the error channel is
NOT fatal to the watch loop — it is reported, but the loop continues
(`exits` is false). -/
theorem error_value_not_fatal_cex :
    (watchStep (WatchInput.errMsg "inotify queue overflow")).exits = false ∧
    (watchStep (WatchInput.errMsg "inotify queue overflow")).reports ≠ [] := by decide

/-- Claim C6 as amended: closure of either channel is fatal to the watch
loop — it is reported and the loop exits (the exit is local to this
loop; the step performs no operation that stops any other unit) — while
an error VALUE received on the error channel is reported and the loop
continues, performing no operation. -/
theorem watch_loop_fatality :
    ((watchStep WatchInput.eventClosed).exits = true ∧
      (watchStep WatchInput.eventClosed).reports = ["Unknown event, halting."]) ∧
    ((watchStep WatchInput.errClosed).exits = true ∧
      (watchStep WatchInput.errClosed).reports = ["Unknown error, halting."]) ∧
    ∀ e : String,
      (watchStep (WatchInput.errMsg e)).exits = false ∧
      (watchStep (WatchInput.errMsg e)).reports =
        ["Error:%!(EXTRA *errors.errorString=" ++ e ++ ")"] ∧
      (watchStep (WatchInput.errMsg e)).ops = [] :=
  ⟨⟨rfl, rfl⟩, ⟨rfl, rfl⟩, fun _ => ⟨rfl, rfl, rfl⟩⟩

/-! ## Claim C7 -/

/-- Claim C7, counterexample: on context cancellation the coordinator
loop exits at once performing NO operation — no final kill-only request
is issued by the loop. -/
theorem cancel_no_final_kill_cex :
    (coordStep CoordInput.ctxDone).exits = true ∧
    (coordStep CoordInput.ctxDone).ops = [] := by decide

/-- Claim C7 as amended: on cancellation the coordinator loop exits
immediately without issuing any request or kill; a queued signal makes it
call the restart operation; the kill of the last child process is
performed by `Run.Close` (whose operations include the kill), outside the
loop, and the one deferred queue send in `Start` is the STARTUP request
issued when `Start` returns, not a shutdown request. -/
theorem coordinator_cancellation :
    (coordStep CoordInput.ctxDone).exits = true ∧
    (coordStep CoordInput.ctxDone).ops = [] ∧
    (coordStep CoordInput.restartSig).exits = false ∧
    (coordStep CoordInput.restartSig).ops = [RunOp.restartProc] ∧
    RunOp.killProc ∈ closeOps ∧
    startDeferredOps = [RunOp.enqueueRestart] := by decide

/-! ## Claim C8 -/

/-- Claim C8, counterexample: with the queue at its capacity of 100
buffered signals, the plain channel send BLOCKS the producer — it does
not drop the signal and continue. -/
theorem send_blocks_when_full_cex :
    chanSend 100 = SendOutcome.blocked ∧
    SendOutcome.blocked ≠ SendOutcome.enqueued := by decide

/-- Claim C8 as amended: the queue capacity is 100; a push enqueues the
signal and returns immediately whenever fewer than 100 signals are
buffered, and blocks the producer (rather than dropping the signal) when
the queue is saturated. -/
theorem restart_send_semantics :
    restartQueueCapacity = 100 ∧
    (∀ n, n < restartQueueCapacity → chanSend n = SendOutcome.enqueued) ∧
    (∀ n, restartQueueCapacity ≤ n → chanSend n = SendOutcome.blocked) := by
  refine ⟨rfl, fun n h => ?_, fun n h => ?_⟩
  · simp [chanSend, h]
  · simp [chanSend, Nat.not_lt.mpr h]

/-- Witness for `restart_send_semantics` at 3 pending (enqueued) and 100
pending (blocked). -/
theorem restart_send_semantics_witness :
    chanSend 3 = SendOutcome.enqueued ∧ chanSend 100 = SendOutcome.blocked :=
  ⟨restart_send_semantics.2.1 3 (by decide),
    restart_send_semantics.2.2 100 (by decide)⟩

/-! ## Claim C9 -/

/-- Claim C9, counterexample: with the token acquired (watcher and
terminal both opened), a `Start` failure makes `main` exit through
`log.Fatalf`, and the terminal mode is restored ZERO times, not once. -/
theorem restore_zero_on_start_failure_cex :
    tokenAcquired none none = true ∧
    mainRestoreCount none none (some "getwd: permission denied") = 0 := by decide

/-- Claim C9 as amended: once the token is acquired the terminal mode is
restored exactly once on the signal-triggered shutdown path (the only
shutdown path `main` has), but ZERO times when `Start` fails after
acquisition, because `log.Fatalf` exits without running `Close`; it is
also never restored when the token was not acquired. -/
theorem restore_per_exit_path (we te se : Option String) :
    (tokenAcquired we te = true → se = none → mainRestoreCount we te se = 1) ∧
    (tokenAcquired we te = true → se.isSome = true → mainRestoreCount we te se = 0) ∧
    (tokenAcquired we te = false → mainRestoreCount we te se = 0) := by
  cases we <;> cases te <;> cases se <;> simp [tokenAcquired, mainRestoreCount]

/-- Witness for `restore_per_exit_path`: restore runs once on the normal
path and zero times when `Start` fails. -/
theorem restore_per_exit_path_witness :
    mainRestoreCount none none none = 1 ∧
    mainRestoreCount none none (some "scan failed") = 0 :=
  ⟨(restore_per_exit_path none none none).1 rfl rfl,
    (restore_per_exit_path none none (some "scan failed")).2.1 rfl rfl⟩

/-! ## Claim C10 -/

/-- Claim C10: called with an empty argument list (and the watcher and
terminal opening fine), `New` does not return an error value — it panics
indexing `args[0]` — and with a non-empty argument list it returns the
`Run` value carrying the arguments and the capacity-100 queue, so a
non-empty command specification is an unchecked precondition. -/
theorem new_empty_args_panics :
    NewRun [] none none =
      NewOutcome.panicked "runtime error: index out of range [0] with length 0" ∧
    isErrOutcome (NewRun [] none none) = false ∧
    ∀ (a : String) (rest : List String),
      NewRun (a :: rest) none none = NewOutcome.ok (a :: rest) 100 :=
  ⟨rfl, rfl, fun _ _ => rfl⟩

end F5
